import Mathlib

/-!
Shallow embedding of the `developer-platform-client-ts` SDK.

The library is a thin HTTP facade: each public operation reads the
process-wide `Client` configuration, builds a URL (a template string) and an
optional JSON body, performs one `fetch`, and maps the outcome onto either
the parsed JSON response or a thrown `Error` whose message is produced by a
shared `try/catch` shape.

The embedding models:
  * JSON values (`Json`) as they come out of `response.json()` /
    go into `JSON.stringify` (absent / `undefined` fields are simply not
    present in the association list, matching `JSON.stringify` dropping
    `undefined`-valued properties);
  * a simulated remote outcome (`FetchOutcome`): either the transport layer
    fails (the promise returned by `fetch` rejects) or a response arrives
    with an HTTP status and a body whose JSON parse either succeeds or
    fails with a parse-error message;
  * the shared request-execution shape (`executeFetch`) used verbatim by
    every integration function of the source;
  * the static `Client` configuration class and the five resource facades
    (`Wallet`, `Token`, `Transaction`, `Contract`, `Block`).

Every operation returns the pair of (result of the call, list of HTTP
requests issued during the call), so that "no network call was attempted"
is expressible as the request list being empty.
-/

/-- JSON values, as produced by `response.json()` and consumed by
`JSON.stringify`. -/
inductive Json where
  | str : String → Json
  | num : Int → Json
  | bool : Bool → Json
  | null : Json
  | arr : List Json → Json
  | obj : List (String × Json) → Json

/-- Key lookup in a JSON object's field list (JavaScript property access on
the parsed object; first binding wins). -/
def lookupKey : List (String × Json) → String → Option Json
  | [], _ => none
  | (k', v) :: rest, k => if k' = k then some v else lookupKey rest k

/-- Property access `body.k`: `none` models JavaScript `undefined`, which is
what property access yields on non-objects or missing keys. -/
def lookupField : Json → String → Option Json
  | Json.obj fields, k => lookupKey fields k
  | _, _ => none

/-- JavaScript truthiness of a JSON value (`""`, `0`, `false`, `null` are
falsy; arrays and objects are always truthy). -/
def jsTruthy : Json → Bool
  | Json.str s => s ≠ ""
  | Json.num n => n ≠ 0
  | Json.bool b => b
  | Json.null => false
  | Json.arr _ => true
  | Json.obj _ => true

mutual

/-- JavaScript `String(v)` coercion, used by `new Error(v)` when the
response body's `error` field is not a string (arrays join with `,`,
objects render as `[object Object]`). -/
def jsToString : Json → String
  | Json.str s => s
  | Json.num n => toString n
  | Json.bool b => if b then "true" else "false"
  | Json.null => "null"
  | Json.arr xs => String.intercalate "," (jsToStringList xs)
  | Json.obj _ => "[object Object]"

/-- Renders each element of a JSON array for `jsToString`. -/
def jsToStringList : List Json → List String
  | [] => []
  | x :: xs => jsToString x :: jsToStringList xs

end

/-- The response-envelope shape declared by `ApiResponse<T>` in
`api.interfaces.ts`: a `status` field equal to `"Success"` or `"Failed"`
and a `data` field. -/
def isEnvelope (j : Json) : Bool :=
  match j with
  | Json.obj fields =>
      (match lookupKey fields "status" with
       | some (Json.str s) => s = "Success" || s = "Failed"
       | _ => false)
      && (lookupKey fields "data").isSome
  | _ => false

/-- HTTP methods (`Method` enum of `api.interfaces.ts`). -/
inductive Method where
  | GET
  | POST
  | PUT
  | DELETE
deriving DecidableEq

/-- One outbound HTTP request as built by an integration function: the
method, the interpolated URL template, and the `JSON.stringify`-ed body for
POST calls (`none` for GET calls issued without a body). -/
structure Request where
  method : Method
  url : String
  body : Option Json

/-- The simulated outcome of one `await fetch(url, options)` together with
the subsequent `response.json()` call: either the fetch promise itself
rejects (DNS / connection / timeout failure carrying a message), or a
response arrives with a status code and a body whose JSON parse either
yields a value or rejects with a parse-error message. -/
inductive FetchOutcome where
  | transportError (msg : String)
  | response (status : Nat) (body : Except String Json)

/-- `response.ok` of the Fetch API: status in the inclusive range 200-299. -/
def responseOk (status : Nat) : Bool :=
  200 ≤ status && status ≤ 299

/-- The fallback failure message built in every integration function when
the error body has no truthy `error` field:
`` `HTTP error! status: ${response.status}` ``. -/
def httpErrorMsg (status : Nat) : String :=
  "HTTP error! status: " ++ toString status

/-- `const serverErrorMessage = errorBody.error || `HTTP error! ...`;` —
the message extracted from a parsed failing response body. -/
def serverErrorMessage (errorBody : Json) (status : Nat) : String :=
  match lookupField errorBody "error" with
  | some v => if jsTruthy v then jsToString v else httpErrorMsg status
  | none => httpErrorMsg status

/-- The body of the `try` block shared by every integration function:
if `!response.ok`, parse the body and throw `serverErrorMessage` (a body
parse failure at this point throws the parse error itself); otherwise
return `await response.json()` (whose parse failure is also thrown). -/
def tryFetch : FetchOutcome → Except String Json
  | FetchOutcome.transportError msg => Except.error msg
  | FetchOutcome.response status body =>
      if responseOk status then
        body
      else
        match body with
        | Except.error parseMsg => Except.error parseMsg
        | Except.ok errorBody => Except.error (serverErrorMessage errorBody status)

/-- The whole `try { ... } catch (e) { throw new Error(`Failed to ...:
${e.message}`) }` shape shared by every integration function: any error
thrown inside the try block — transport failure, server-reported error, or
JSON parse failure — is caught and re-thrown with the call-site prefix
`failMsg` (e.g. `"Failed to create wallet: "`) prepended. -/
def executeFetch (failMsg : String) (net : FetchOutcome) : Except String Json :=
  match tryFetch net with
  | Except.ok v => Except.ok v
  | Except.error m => Except.error (failMsg ++ m)

/-- Base URL constant. Modelled from the spec: `const.js` (exporting
`BaseUrl`) is not under `src/`; per spec §6 the endpoints are inconsistent
between the production host (hard-coded in most integration files) and a
local host, and no claim depends on the base URL's value, so the
production host is used. -/
def BaseUrl : String := "https://developer-platform-api.crypto.com"

/-- `Config`: the argument of `Client.init` — chain selector (an enum whose
values are chain-id strings like `"240"`), API key, optional provider. -/
structure Config where
  chain : String
  apiKey : String
  provider : Option String
deriving DecidableEq

/-- The three private static fields of the `Client` class. `none` models a
field that was never assigned (JavaScript `undefined`). -/
structure ClientState where
  chainId : Option String
  apiKey : Option String
  provider : Option String
deriving DecidableEq

namespace Client

/-- The process state before any `Client.init` call: all three static
fields are `undefined`. -/
def initialState : ClientState :=
  { chainId := none, apiKey := none, provider := none }

/-- `Client.init(config)`: overwrites all three static fields
unconditionally. -/
def init (config : Config) (_st : ClientState) : ClientState :=
  { chainId := some config.chain
  , apiKey := some config.apiKey
  , provider := config.provider }

/-- The message of the error thrown by `Client.getApiKey` when the stored
key is falsy. -/
def apiKeyNotConfiguredMsg : String :=
  "API key not configured. Call Client.configure(\x7b apiKey: \x27your-api-key\x27 \x7d) first."

/-- The message of the error thrown by `Client.getChainId` when the stored
chain id is falsy. -/
def chainNotConfiguredMsg : String :=
  "Chain ID not configured. Call Client.configure(\x7b chain: CronosZkEvm.Testnet \x7d) first."

/-- `Client.getApiKey()`: `if (!this.apiKey) throw ...; return this.apiKey`.
JavaScript `!` is true both on `undefined` (never initialized) and on the
empty string. -/
def getApiKey (st : ClientState) : Except String String :=
  match st.apiKey with
  | none => Except.error apiKeyNotConfiguredMsg
  | some s => if s = "" then Except.error apiKeyNotConfiguredMsg else Except.ok s

/-- `Client.getChainId()`: same truthiness guard as `getApiKey`. -/
def getChainId (st : ClientState) : Except String String :=
  match st.chainId with
  | none => Except.error chainNotConfiguredMsg
  | some s => if s = "" then Except.error chainNotConfiguredMsg else Except.ok s

/-- `Client.getProvider()`: `return this.provider;` — no guard, never
throws. -/
def getProvider (st : ClientState) : Except String (Option String) :=
  Except.ok st.provider

end Client

/-- Payload of `transferToken` (integration layer type, which the facade's
payload flows into): `\x7b to, amount, contractAddress?, provider? \x7d`. -/
structure TransferPayload where
  «to» : String
  amount : Int
  contractAddress : Option String
  provider : Option String
deriving DecidableEq

/-- The set of objects accepted by `Token.wrap`'s declared parameter type
`\x7b amount: number \x7d`: only `amount` is required, so the two contract
addresses may be absent at the call site (the runtime object is forwarded
as-is to `wrapToken`). -/
structure WrapCallPayload where
  amount : Int
  fromContractAddress : Option String
  toContractAddress : Option String
deriving DecidableEq

/-- Payload of `Token.swap` / `swapToken`:
`\x7b fromContractAddress, toContractAddress, amount \x7d`, all required. -/
structure SwapPayload where
  fromContractAddress : String
  toContractAddress : String
  amount : Int
deriving DecidableEq

/-- A field of a `JSON.stringify`-ed object coming from an optional
(string-valued) property: an `undefined` property is dropped. -/
def optField (k : String) (v : Option String) : List (String × Json) :=
  match v with
  | some s => [(k, Json.str s)]
  | none => []

/-- `JSON.stringify(\x7b ...payload, provider \x7d)` for `transferToken`:
the spread copies the payload's fields and the trailing `provider` binding
overwrites any `provider` the caller put in the payload with the value read
from the configuration (an `undefined` provider is dropped by
`JSON.stringify`). Field order follows the declared payload type. -/
def transferBody (p : TransferPayload) (provider : Option String) : Json :=
  Json.obj ([("to", Json.str p.«to»), ("amount", Json.num p.amount)]
    ++ optField "contractAddress" p.contractAddress
    ++ optField "provider" provider)

/-- `JSON.stringify(\x7b ...payload, provider \x7d)` for `wrapToken`, on the
runtime objects `Token.wrap` can receive (see `WrapCallPayload`). -/
def wrapBody (p : WrapCallPayload) (provider : Option String) : Json :=
  Json.obj ([("amount", Json.num p.amount)]
    ++ optField "fromContractAddress" p.fromContractAddress
    ++ optField "toContractAddress" p.toContractAddress
    ++ optField "provider" provider)

/-- `JSON.stringify(\x7b ...payload, provider \x7d)` for `swapToken`. -/
def swapBody (p : SwapPayload) (provider : Option String) : Json :=
  Json.obj ([("fromContractAddress", Json.str p.fromContractAddress),
    ("toContractAddress", Json.str p.toContractAddress),
    ("amount", Json.num p.amount)]
    ++ optField "provider" provider)

namespace walletApi

/-- `createWallet()` of `wallet.api.ts` (the copy cited by the claims):
POST to `$\x7bBaseUrl\x7d/v1/cdc-developer-platform/wallet`, no
configuration value used at all. -/
def createWallet (net : FetchOutcome) : Except String Json × List Request :=
  let url := BaseUrl ++ "/v1/cdc-developer-platform/wallet"
  (executeFetch "Failed to create wallet: " net,
   [⟨Method.POST, url, none⟩])

/-- `getBalance(chainId, address)` of `wallet.api.ts` (the copy cited by
the claims, which takes no API key). -/
def getBalance (chainId address : String) (net : FetchOutcome) :
    Except String Json × List Request :=
  let url := BaseUrl ++ "/api/v1/cdc-developer-platform/wallet/" ++ chainId
    ++ "/balance?address=" ++ address
  (executeFetch "Failed to fetch wallet balance: " net,
   [⟨Method.GET, url, none⟩])

end walletApi

namespace tokenApi

/-- `getNativeTokenBalance(chainId, address, apiKey)` of `token.api.ts`. -/
def getNativeTokenBalance (chainId address apiKey : String) (net : FetchOutcome) :
    Except String Json × List Request :=
  let url := "https://developer-platform-api.crypto.com/api/v1/cdc-developer-platform/token/"
    ++ chainId ++ "/native-token-balance?address=" ++ address ++ "&apiKey=" ++ apiKey
  (executeFetch "Failed to fetch native token balance: " net,
   [⟨Method.GET, url, none⟩])

/-- `getERC20TokenBalance(chainId, address, contractAddress, blockHeight,
apiKey)` of `token.api.ts` (the facade always supplies `blockHeight`). -/
def getERC20TokenBalance (chainId address contractAddress blockHeight apiKey : String)
    (net : FetchOutcome) : Except String Json × List Request :=
  let url := "https://developer-platform-api.crypto.com/v1/cdc-developer-platform/token/"
    ++ chainId ++ "/erc20-token-balance?address=" ++ address
    ++ "&contractAddress=" ++ contractAddress
    ++ "&blockHeight=" ++ blockHeight ++ "&apiKey=" ++ apiKey
  (executeFetch "Failed to fetch ERC20 token balance: " net,
   [⟨Method.GET, url, none⟩])

/-- `transferToken(chainId, payload, provider)` of `token.api.ts`. -/
def transferToken (chainId : String) (payload : TransferPayload)
    (provider : Option String) (net : FetchOutcome) :
    Except String Json × List Request :=
  let url := "https://developer-platform-api.crypto.com/v1/cdc-developer-platform/token/"
    ++ chainId ++ "/transfer"
  (executeFetch "Failed to transfer token: " net,
   [⟨Method.POST, url, some (transferBody payload provider)⟩])

/-- `wrapToken(chainId, payload, provider)` of `token.api.ts`, on the
runtime objects `Token.wrap` can pass it. -/
def wrapToken (chainId : String) (payload : WrapCallPayload)
    (provider : Option String) (net : FetchOutcome) :
    Except String Json × List Request :=
  let url := "https://developer-platform-api.crypto.com/v1/cdc-developer-platform/transaction/"
    ++ chainId ++ "/wrap"
  (executeFetch "Failed to wrap token: " net,
   [⟨Method.POST, url, some (wrapBody payload provider)⟩])

/-- `swapToken(chainId, payload, provider)` of `token.api.ts`. -/
def swapToken (chainId : String) (payload : SwapPayload)
    (provider : Option String) (net : FetchOutcome) :
    Except String Json × List Request :=
  let url := "https://developer-platform-api.crypto.com/v1/cdc-developer-platform/transaction/"
    ++ chainId ++ "/swap"
  (executeFetch "Failed to swap token: " net,
   [⟨Method.POST, url, some (swapBody payload provider)⟩])

end tokenApi

namespace transactionApi

/-- `getTransactionsByAddress(chainId, address, session = '', limit = '20',
apiKey)` of `transaction.api.ts`; the TypeScript defaults fire when the
facade passes `undefined`, modelled by `Option.getD`. -/
def getTransactionsByAddress (chainId address : String)
    (session limit : Option String) (apiKey : String) (net : FetchOutcome) :
    Except String Json × List Request :=
  let session := session.getD ""
  let limit := limit.getD "20"
  let url := "https://developer-platform-api.crypto.com/api/v1/cdc-developer-platform/transaction/"
    ++ chainId ++ "/address?address=" ++ address ++ "&session=" ++ session
    ++ "&limit=" ++ limit ++ "&apiKey=" ++ apiKey
  (executeFetch "Failed to fetch transactions by address: " net,
   [⟨Method.GET, url, none⟩])

/-- `getTransactionByHash(chainId, txHash, apiKey)` of
`transaction.api.ts`. -/
def getTransactionByHash (chainId txHash apiKey : String) (net : FetchOutcome) :
    Except String Json × List Request :=
  let url := "https://developer-platform-api.crypto.com/v1/cdc-developer-platform/transaction/"
    ++ chainId ++ "/tx-hash?txHash=" ++ txHash ++ "&apiKey=" ++ apiKey
  (executeFetch "Failed to fetch transaction by hash: " net,
   [⟨Method.GET, url, none⟩])

/-- `getTransactionStatus(chainId, txHash, apiKey)` of
`transaction.api.ts`. -/
def getTransactionStatus (chainId txHash apiKey : String) (net : FetchOutcome) :
    Except String Json × List Request :=
  let url := "https://developer-platform-api.crypto.com/v1/cdc-developer-platform/transaction/"
    ++ chainId ++ "/status?txHash=" ++ txHash ++ "&apiKey=" ++ apiKey
  (executeFetch "Failed to fetch transaction status: " net,
   [⟨Method.GET, url, none⟩])

end transactionApi

namespace contractApi

/-- `getContractABI(chainId, contractAddress, apiKey)` of
`contract.api.ts` (the production-host copy). -/
def getContractABI (chainId contractAddress apiKey : String) (net : FetchOutcome) :
    Except String Json × List Request :=
  let url := "https://developer-platform-api.crypto.com/api/v1/cdc-developer-platform/contract/"
    ++ chainId ++ "/contract-abi?contractAddress=" ++ contractAddress
    ++ "&apiKey=" ++ apiKey
  (executeFetch "Failed to fetch contract ABI: " net,
   [⟨Method.GET, url, none⟩])

end contractApi

namespace blockApi

/-- `getBlockByTag(chainId, blockTag, txDetail = '', apiKey)` of
`block.api.ts`. -/
def getBlockByTag (chainId blockTag : String) (txDetail : Option String)
    (apiKey : String) (net : FetchOutcome) : Except String Json × List Request :=
  let txDetail := txDetail.getD ""
  let url := "http://localhost:8000/v1/cdc-developer-platform/block/" ++ chainId
    ++ "/block-tag?blockTag=" ++ blockTag ++ "&txDetail=" ++ txDetail
    ++ "&apiKey=" ++ apiKey
  (executeFetch "Failed to fetch block by tag: " net,
   [⟨Method.GET, url, none⟩])

end blockApi

namespace Wallet

/-- `Wallet.create()` (from `src/lib/client/Wallet.ts`): delegates straight
to `createWallet()` — it reads no configuration value at all. -/
def create (net : FetchOutcome) : Except String Json × List Request :=
  walletApi.createWallet net

/-- `Wallet.balance(address)` (from `src/lib/client/Wallet.ts`, the copy
cited by the claims): reads the chain id, then delegates. -/
def balance (st : ClientState) (address : String) (net : FetchOutcome) :
    Except String Json × List Request :=
  match Client.getChainId st with
  | Except.error e => (Except.error e, [])
  | Except.ok chainId => walletApi.getBalance chainId address net

end Wallet

namespace Token

/-- `Token.getNativeTokenBalance(address)`: reads chain id then API key,
then delegates. -/
def getNativeTokenBalance (st : ClientState) (address : String) (net : FetchOutcome) :
    Except String Json × List Request :=
  match Client.getChainId st with
  | Except.error e => (Except.error e, [])
  | Except.ok chainId =>
    match Client.getApiKey st with
    | Except.error e => (Except.error e, [])
    | Except.ok apiKey => tokenApi.getNativeTokenBalance chainId address apiKey net

/-- `Token.getERC20TokenBalance(address, contractAddress, blockHeight =
'latest')`: the default fires when the caller omits the argument. -/
def getERC20TokenBalance (st : ClientState) (address contractAddress : String)
    (blockHeight : Option String) (net : FetchOutcome) :
    Except String Json × List Request :=
  match Client.getChainId st with
  | Except.error e => (Except.error e, [])
  | Except.ok chainId =>
    match Client.getApiKey st with
    | Except.error e => (Except.error e, [])
    | Except.ok apiKey =>
        tokenApi.getERC20TokenBalance chainId address contractAddress
          (blockHeight.getD "latest") apiKey net

/-- `Token.transfer(payload)`: reads chain id and provider (no API key),
then delegates. -/
def transfer (st : ClientState) (payload : TransferPayload) (net : FetchOutcome) :
    Except String Json × List Request :=
  match Client.getChainId st with
  | Except.error e => (Except.error e, [])
  | Except.ok chainId =>
    match Client.getProvider st with
    | Except.error e => (Except.error e, [])
    | Except.ok provider => tokenApi.transferToken chainId payload provider net

/-- `Token.wrap(payload)`: reads chain id and provider, then delegates.
Its declared payload type requires only `amount` (see `WrapCallPayload`). -/
def wrap (st : ClientState) (payload : WrapCallPayload) (net : FetchOutcome) :
    Except String Json × List Request :=
  match Client.getChainId st with
  | Except.error e => (Except.error e, [])
  | Except.ok chainId =>
    match Client.getProvider st with
    | Except.error e => (Except.error e, [])
    | Except.ok provider => tokenApi.wrapToken chainId payload provider net

/-- `Token.swap(payload)`: reads chain id and provider, then delegates. -/
def swap (st : ClientState) (payload : SwapPayload) (net : FetchOutcome) :
    Except String Json × List Request :=
  match Client.getChainId st with
  | Except.error e => (Except.error e, [])
  | Except.ok chainId =>
    match Client.getProvider st with
    | Except.error e => (Except.error e, [])
    | Except.ok provider => tokenApi.swapToken chainId payload provider net

end Token

namespace Transaction

/-- `Transaction.getTransactionsByAddress(address, session?, limit?)`:
reads chain id then API key; the optional arguments travel as `undefined`
into the integration function's defaults. -/
def getTransactionsByAddress (st : ClientState) (address : String)
    (session limit : Option String) (net : FetchOutcome) :
    Except String Json × List Request :=
  match Client.getChainId st with
  | Except.error e => (Except.error e, [])
  | Except.ok chainId =>
    match Client.getApiKey st with
    | Except.error e => (Except.error e, [])
    | Except.ok apiKey =>
        transactionApi.getTransactionsByAddress chainId address session limit apiKey net

/-- `Transaction.getTransactionByHash(txHash)`. -/
def getTransactionByHash (st : ClientState) (txHash : String) (net : FetchOutcome) :
    Except String Json × List Request :=
  match Client.getChainId st with
  | Except.error e => (Except.error e, [])
  | Except.ok chainId =>
    match Client.getApiKey st with
    | Except.error e => (Except.error e, [])
    | Except.ok apiKey => transactionApi.getTransactionByHash chainId txHash apiKey net

/-- `Transaction.getTransactionStatus(txHash)`. -/
def getTransactionStatus (st : ClientState) (txHash : String) (net : FetchOutcome) :
    Except String Json × List Request :=
  match Client.getChainId st with
  | Except.error e => (Except.error e, [])
  | Except.ok chainId =>
    match Client.getApiKey st with
    | Except.error e => (Except.error e, [])
    | Except.ok apiKey => transactionApi.getTransactionStatus chainId txHash apiKey net

end Transaction

namespace Contract

/-- `Contract.getContractABI(contractAddress)`. -/
def getContractABI (st : ClientState) (contractAddress : String) (net : FetchOutcome) :
    Except String Json × List Request :=
  match Client.getChainId st with
  | Except.error e => (Except.error e, [])
  | Except.ok chainId =>
    match Client.getApiKey st with
    | Except.error e => (Except.error e, [])
    | Except.ok apiKey => contractApi.getContractABI chainId contractAddress apiKey net

end Contract

namespace Block

/-- `Block.getBlockByTag(blockTag, txDetail?)`. -/
def getBlockByTag (st : ClientState) (blockTag : String) (txDetail : Option String)
    (net : FetchOutcome) : Except String Json × List Request :=
  match Client.getChainId st with
  | Except.error e => (Except.error e, [])
  | Except.ok chainId =>
    match Client.getApiKey st with
    | Except.error e => (Except.error e, [])
    | Except.ok apiKey => blockApi.getBlockByTag chainId blockTag txDetail apiKey net

end Block

/-- One invocation of a facade operation (the public surface of the
library), carrying the caller-supplied arguments. Used to quantify claims
of the form "for every facade operation". -/
inductive FacadeOp where
  | walletCreate
  | walletBalance (address : String)
  | nativeTokenBalance (address : String)
  | erc20TokenBalance (address contractAddress : String) (blockHeight : Option String)
  | tokenTransfer (p : TransferPayload)
  | tokenWrap (p : WrapCallPayload)
  | tokenSwap (p : SwapPayload)
  | txByAddress (address : String) (session limit : Option String)
  | txByHash (txHash : String)
  | txStatus (txHash : String)
  | contractAbi (contractAddress : String)
  | blockByTag (blockTag : String) (txDetail : Option String)
deriving DecidableEq

/-- Dispatches a facade invocation to the corresponding facade method. -/
def runOp (op : FacadeOp) (st : ClientState) (net : FetchOutcome) :
    Except String Json × List Request :=
  match op with
  | FacadeOp.walletCreate => Wallet.create net
  | FacadeOp.walletBalance address => Wallet.balance st address net
  | FacadeOp.nativeTokenBalance address => Token.getNativeTokenBalance st address net
  | FacadeOp.erc20TokenBalance address contractAddress blockHeight =>
      Token.getERC20TokenBalance st address contractAddress blockHeight net
  | FacadeOp.tokenTransfer p => Token.transfer st p net
  | FacadeOp.tokenWrap p => Token.wrap st p net
  | FacadeOp.tokenSwap p => Token.swap st p net
  | FacadeOp.txByAddress address session limit =>
      Transaction.getTransactionsByAddress st address session limit net
  | FacadeOp.txByHash txHash => Transaction.getTransactionByHash st txHash net
  | FacadeOp.txStatus txHash => Transaction.getTransactionStatus st txHash net
  | FacadeOp.contractAbi contractAddress => Contract.getContractABI st contractAddress net
  | FacadeOp.blockByTag blockTag txDetail => Block.getBlockByTag st blockTag txDetail net

/-- The call-site failure prefix of each operation, exactly the string its
integration function's `catch` block prepends (it names the failing
operation). -/
def opFailMsg : FacadeOp → String
  | FacadeOp.walletCreate => "Failed to create wallet: "
  | FacadeOp.walletBalance _ => "Failed to fetch wallet balance: "
  | FacadeOp.nativeTokenBalance _ => "Failed to fetch native token balance: "
  | FacadeOp.erc20TokenBalance _ _ _ => "Failed to fetch ERC20 token balance: "
  | FacadeOp.tokenTransfer _ => "Failed to transfer token: "
  | FacadeOp.tokenWrap _ => "Failed to wrap token: "
  | FacadeOp.tokenSwap _ => "Failed to swap token: "
  | FacadeOp.txByAddress _ _ _ => "Failed to fetch transactions by address: "
  | FacadeOp.txByHash _ => "Failed to fetch transaction by hash: "
  | FacadeOp.txStatus _ => "Failed to fetch transaction status: "
  | FacadeOp.contractAbi _ => "Failed to fetch contract ABI: "
  | FacadeOp.blockByTag _ _ => "Failed to fetch block by tag: "

lemma getChainId_init (cfg : Config) (st : ClientState) (h : cfg.chain ≠ "") :
    Client.getChainId (Client.init cfg st) = Except.ok cfg.chain := by
  simp [Client.getChainId, Client.init, h]

lemma getApiKey_init (cfg : Config) (st : ClientState) (h : cfg.apiKey ≠ "") :
    Client.getApiKey (Client.init cfg st) = Except.ok cfg.apiKey := by
  simp [Client.getApiKey, Client.init, h]

lemma responseOk_true (status : Nat) (h1 : 200 ≤ status) (h2 : status ≤ 299) :
    responseOk status = true := by
  simp only [responseOk, Bool.and_eq_true, decide_eq_true_eq]
  omega

lemma responseOk_false_of_ge400 (status : Nat) (h : 400 ≤ status) :
    responseOk status = false := by
  simp only [responseOk, Bool.and_eq_false_iff, decide_eq_false_iff_not]
  omega

lemma executeFetch_ok (m : String) (status : Nat) (j : Json)
    (h1 : 200 ≤ status) (h2 : status ≤ 299) :
    executeFetch m (FetchOutcome.response status (Except.ok j)) = Except.ok j := by
  simp [executeFetch, tryFetch, responseOk_true status h1 h2]

lemma executeFetch_transport (m msg : String) :
    executeFetch m (FetchOutcome.transportError msg) = Except.error (m ++ msg) := rfl

lemma executeFetch_parseFail (m : String) (status : Nat) (pm : String) (h : 400 ≤ status) :
    executeFetch m (FetchOutcome.response status (Except.error pm)) = Except.error (m ++ pm) := by
  simp [executeFetch, tryFetch, responseOk_false_of_ge400 status h]

lemma executeFetch_errorField (m : String) (status : Nat) (body : Json) (emsg : String)
    (h : 400 ≤ status) (hL : lookupField body "error" = some (Json.str emsg)) (hE : emsg ≠ "") :
    executeFetch m (FetchOutcome.response status (Except.ok body)) = Except.error (m ++ emsg) := by
  simp [executeFetch, tryFetch, responseOk_false_of_ge400 status h, serverErrorMessage, hL,
    jsTruthy, hE, jsToString]

lemma runOp_configured (op : FacadeOp) (cfg : Config) (st : ClientState) (net : FetchOutcome)
    (h1 : cfg.chain ≠ "") (h2 : cfg.apiKey ≠ "") :
    (runOp op (Client.init cfg st) net).1 = executeFetch (opFailMsg op) net := by
  cases op <;>
    simp [runOp, opFailMsg, Wallet.create, Wallet.balance, Token.getNativeTokenBalance,
      Token.getERC20TokenBalance, Token.transfer, Token.wrap, Token.swap,
      Transaction.getTransactionsByAddress, Transaction.getTransactionByHash,
      Transaction.getTransactionStatus, Contract.getContractABI, Block.getBlockByTag,
      walletApi.createWallet, walletApi.getBalance, tokenApi.getNativeTokenBalance,
      tokenApi.getERC20TokenBalance, tokenApi.transferToken, tokenApi.wrapToken,
      tokenApi.swapToken, transactionApi.getTransactionsByAddress,
      transactionApi.getTransactionByHash, transactionApi.getTransactionStatus,
      contractApi.getContractABI, blockApi.getBlockByTag,
      getChainId_init cfg st h1, getApiKey_init cfg st h2, Client.getProvider]

lemma runOp_initialState (op : FacadeOp) (net : FetchOutcome)
    (h : op ≠ FacadeOp.walletCreate) :
    runOp op Client.initialState net = (Except.error Client.chainNotConfiguredMsg, []) := by
  cases op <;> first | (exact absurd rfl h) | rfl

/-- C1 counterexample: the claim "every facade operation invoked before
`Client.init` fails with the Configuration-Missing error and issues no HTTP
request" is false for `Wallet.create`: invoked on the never-initialized
state it issues exactly one HTTP request and returns the parsed response
instead of failing — it reads no configuration at all. -/
theorem c1_counterexample :
    (runOp FacadeOp.walletCreate Client.initialState
        (FetchOutcome.response 200 (Except.ok Json.null))).1 = Except.ok Json.null ∧
    (runOp FacadeOp.walletCreate Client.initialState
        (FetchOutcome.response 200 (Except.ok Json.null))).2.length = 1 :=
  ⟨rfl, rfl⟩

/-- C1 (amended): every facade operation except `Wallet.create`, invoked
before `Client.init`, fails with the Configuration-Missing error thrown by
`Client.getChainId` (the first configuration getter each of them calls) and
issues no HTTP request; `Wallet.create` reads no configuration and always
issues exactly one request. -/
theorem c1_config_missing_blocks_ops :
    (∀ (op : FacadeOp) (net : FetchOutcome), op ≠ FacadeOp.walletCreate →
        runOp op Client.initialState net
          = (Except.error Client.chainNotConfiguredMsg, [])) ∧
    (∀ net : FetchOutcome,
        (runOp FacadeOp.walletCreate Client.initialState net).2.length = 1) :=
  ⟨fun op net h => runOp_initialState op net h, fun _ => rfl⟩

/-- C1 witness: the amended theorem applied to
`Transaction.getTransactionByHash("0xh")` on the never-initialized state. -/
theorem c1_config_missing_blocks_ops_witness :
    FacadeOp.txByHash "0xh" ≠ FacadeOp.walletCreate ∧
    runOp (FacadeOp.txByHash "0xh") Client.initialState (FetchOutcome.transportError "dns")
      = (Except.error Client.chainNotConfiguredMsg, []) :=
  ⟨by decide,
   c1_config_missing_blocks_ops.1 (FacadeOp.txByHash "0xh")
     (FetchOutcome.transportError "dns") (by decide)⟩

/-- C2: for every facade operation, configured with a truthy chain and API
key, a simulated reply with a success HTTP status (200-299) whose body
parses as a well-formed response envelope is returned exactly as parsed —
no field, the envelope's `status` field included, is altered, added or
removed (the integration functions `return await response.json()`
verbatim). -/
theorem c2_envelope_pass_through (op : FacadeOp) (cfg : Config) (st : ClientState)
    (status : Nat) (j : Json)
    (h1 : cfg.chain ≠ "") (h2 : cfg.apiKey ≠ "")
    (hs1 : 200 ≤ status) (hs2 : status ≤ 299) (_hj : isEnvelope j = true) :
    (runOp op (Client.init cfg st) (FetchOutcome.response status (Except.ok j))).1
      = Except.ok j := by
  rw [runOp_configured op cfg st _ h1 h2, executeFetch_ok _ status j hs1 hs2]

/-- C2 witness: `Wallet.balance` configured on Cronos ZK EVM Testnet,
HTTP 200, envelope with `status = "Success"`. -/
theorem c2_envelope_pass_through_witness :
    ("240" : String) ≠ "" ∧ ("test-key" : String) ≠ "" ∧ 200 ≤ 200 ∧ 200 ≤ 299 ∧
    isEnvelope (Json.obj [("status", Json.str "Success"), ("data", Json.str "1000")]) = true ∧
    (runOp (FacadeOp.walletBalance "0xabc")
        (Client.init ⟨"240", "test-key", none⟩ Client.initialState)
        (FetchOutcome.response 200
          (Except.ok (Json.obj [("status", Json.str "Success"), ("data", Json.str "1000")])))).1
      = Except.ok (Json.obj [("status", Json.str "Success"), ("data", Json.str "1000")]) :=
  ⟨by decide, by decide, by decide, by decide, by decide,
   c2_envelope_pass_through (FacadeOp.walletBalance "0xabc") ⟨"240", "test-key", none⟩
     Client.initialState 200
     (Json.obj [("status", Json.str "Success"), ("data", Json.str "1000")])
     (by decide) (by decide) (by decide) (by decide) (by decide)⟩

/-- C3: for every facade operation, configured, a simulated reply with a
failing (4xx/5xx) HTTP status whose body parses as JSON carrying a truthy
`error` field raises a failure whose message is exactly the
operation-naming prefix (`opFailMsg`, e.g. `"Failed to fetch native token
balance: "`) followed by that `error` string verbatim. -/
theorem c3_error_field_surfaced (op : FacadeOp) (cfg : Config) (st : ClientState)
    (status : Nat) (body : Json) (emsg : String)
    (h1 : cfg.chain ≠ "") (h2 : cfg.apiKey ≠ "") (hs : 400 ≤ status)
    (hL : lookupField body "error" = some (Json.str emsg)) (hE : emsg ≠ "") :
    (runOp op (Client.init cfg st) (FetchOutcome.response status (Except.ok body))).1
      = Except.error (opFailMsg op ++ emsg) := by
  rw [runOp_configured op cfg st _ h1 h2,
    executeFetch_errorField _ status body emsg hs hL hE]

/-- C3 witness: `Token.getNativeTokenBalance` configured, HTTP 400 with
body `\x7b"error": "insufficient funds"\x7d` fails with
`"Failed to fetch native token balance: insufficient funds"`. -/
theorem c3_error_field_surfaced_witness :
    ("240" : String) ≠ "" ∧ ("test-key" : String) ≠ "" ∧ 400 ≤ 400 ∧
    lookupField (Json.obj [("error", Json.str "insufficient funds")]) "error"
      = some (Json.str "insufficient funds") ∧
    ("insufficient funds" : String) ≠ "" ∧
    (runOp (FacadeOp.nativeTokenBalance "0xabc")
        (Client.init ⟨"240", "test-key", none⟩ Client.initialState)
        (FetchOutcome.response 400
          (Except.ok (Json.obj [("error", Json.str "insufficient funds")])))).1
      = Except.error "Failed to fetch native token balance: insufficient funds" :=
  ⟨by decide, by decide, by decide, by simp [lookupField, lookupKey], by decide,
   c3_error_field_surfaced (FacadeOp.nativeTokenBalance "0xabc") ⟨"240", "test-key", none⟩
     Client.initialState 400 (Json.obj [("error", Json.str "insufficient funds")])
     "insufficient funds" (by decide) (by decide) (by decide)
     (by simp [lookupField, lookupKey]) (by decide)⟩

/-- C4 counterexample: the claim "a failing HTTP status with a body that is
not valid JSON raises a failure whose message contains the numeric status
code" is false: with HTTP 500 and an unparsable body, `Wallet.create`
raises `"Failed to create wallet: Unexpected token"` — the parse failure is
surfaced instead, and the message contains no digit at all, hence not the
status code 500. -/
theorem c4_counterexample :
    (runOp FacadeOp.walletCreate Client.initialState
        (FetchOutcome.response 500 (Except.error "Unexpected token"))).1
      = Except.error "Failed to create wallet: Unexpected token" ∧
    ("Failed to create wallet: Unexpected token".toList.filter Char.isDigit) = [] :=
  ⟨rfl, by decide⟩

/-- C4 (amended): for every facade operation, configured, a simulated reply
with a failing (4xx/5xx) HTTP status and a body that is not valid JSON
raises a failure whose message is the operation-naming prefix followed by
the JSON parse failure's message — the parse failure is surfaced instead of
the numeric status code (which appears only when the body parses but lacks
a truthy `error` field). -/
theorem c4_unparsable_body_surfaces_parse_error (op : FacadeOp) (cfg : Config)
    (st : ClientState) (status : Nat) (parseMsg : String)
    (h1 : cfg.chain ≠ "") (h2 : cfg.apiKey ≠ "") (hs : 400 ≤ status) :
    (runOp op (Client.init cfg st) (FetchOutcome.response status (Except.error parseMsg))).1
      = Except.error (opFailMsg op ++ parseMsg) := by
  rw [runOp_configured op cfg st _ h1 h2, executeFetch_parseFail _ status parseMsg hs]

/-- C4 witness: `Transaction.getTransactionsByAddress` configured, HTTP 502
with an unparsable body. -/
theorem c4_unparsable_body_surfaces_parse_error_witness :
    ("338" : String) ≠ "" ∧ ("k" : String) ≠ "" ∧ 400 ≤ 502 ∧
    (runOp (FacadeOp.txByAddress "0xabc" none none)
        (Client.init ⟨"338", "k", none⟩ Client.initialState)
        (FetchOutcome.response 502 (Except.error "Unexpected end of JSON input"))).1
      = Except.error
          "Failed to fetch transactions by address: Unexpected end of JSON input" :=
  ⟨by decide, by decide, by decide,
   c4_unparsable_body_surfaces_parse_error (FacadeOp.txByAddress "0xabc" none none)
     ⟨"338", "k", none⟩ Client.initialState 502 "Unexpected end of JSON input"
     (by decide) (by decide) (by decide)⟩

/-- C5: with the client configured, `Token.getERC20TokenBalance` called
without an explicit block height issues exactly one request whose URL
contains `blockHeight=latest`, and `Transaction.getTransactionsByAddress`
called without session or limit issues exactly one request whose URL
contains `session=&limit=20` (empty session, limit defaulted to 20). -/
theorem c5_query_defaults (cfg : Config) (st : ClientState)
    (address contractAddress : String) (net : FetchOutcome)
    (h1 : cfg.chain ≠ "") (h2 : cfg.apiKey ≠ "") :
    (∃ r, (Token.getERC20TokenBalance (Client.init cfg st) address contractAddress none net).2
        = [r] ∧ ∃ p q, r.url = p ++ "blockHeight=latest" ++ q) ∧
    (∃ r, (Transaction.getTransactionsByAddress (Client.init cfg st) address none none net).2
        = [r] ∧ ∃ p q, r.url = p ++ "session=&limit=20" ++ q) := by
  constructor
  · refine ⟨⟨Method.GET,
      "https://developer-platform-api.crypto.com/v1/cdc-developer-platform/token/"
        ++ cfg.chain ++ "/erc20-token-balance?address=" ++ address
        ++ "&contractAddress=" ++ contractAddress
        ++ "&blockHeight=" ++ "latest" ++ "&apiKey=" ++ cfg.apiKey, none⟩, ?_, ?_⟩
    · simp [Token.getERC20TokenBalance, getChainId_init cfg st h1, getApiKey_init cfg st h2,
        tokenApi.getERC20TokenBalance]
    · refine ⟨"https://developer-platform-api.crypto.com/v1/cdc-developer-platform/token/"
        ++ cfg.chain ++ "/erc20-token-balance?address=" ++ address
        ++ "&contractAddress=" ++ contractAddress ++ "&",
        "&apiKey=" ++ cfg.apiKey, ?_⟩
      simp only [String.append_assoc]
      rfl
  · refine ⟨⟨Method.GET,
      "https://developer-platform-api.crypto.com/api/v1/cdc-developer-platform/transaction/"
        ++ cfg.chain ++ "/address?address=" ++ address
        ++ "&session=" ++ "" ++ "&limit=" ++ "20" ++ "&apiKey=" ++ cfg.apiKey, none⟩, ?_, ?_⟩
    · simp [Transaction.getTransactionsByAddress, getChainId_init cfg st h1,
        getApiKey_init cfg st h2, transactionApi.getTransactionsByAddress]
    · refine ⟨"https://developer-platform-api.crypto.com/api/v1/cdc-developer-platform/transaction/"
        ++ cfg.chain ++ "/address?address=" ++ address ++ "&",
        "&apiKey=" ++ cfg.apiKey, ?_⟩
      simp only [String.append_assoc]
      rfl

/-- C5 witness: concrete configured client, concrete addresses. -/
theorem c5_query_defaults_witness :
    ("25" : String) ≠ "" ∧ ("k" : String) ≠ "" ∧
    ((∃ r, (Token.getERC20TokenBalance (Client.init ⟨"25", "k", none⟩ Client.initialState)
        "0xw" "0xe" none (FetchOutcome.transportError "x")).2
        = [r] ∧ ∃ p q, r.url = p ++ "blockHeight=latest" ++ q) ∧
    (∃ r, (Transaction.getTransactionsByAddress (Client.init ⟨"25", "k", none⟩ Client.initialState)
        "0xw" none none (FetchOutcome.transportError "x")).2
        = [r] ∧ ∃ p q, r.url = p ++ "session=&limit=20" ++ q)) :=
  ⟨by decide, by decide,
   c5_query_defaults ⟨"25", "k", none⟩ Client.initialState "0xw" "0xe"
     (FetchOutcome.transportError "x") (by decide) (by decide)⟩

/-- C6 (code bug): `Token.wrap`'s declared parameter type is
`\x7b amount: number \x7d`, so a call supplying only `amount` type-checks —
contradicting the method's own doc comment, the declared parameter type of
the `wrapToken` integration function it forwards to, and the README
example, which all require `fromContractAddress`, `toContractAddress` and
`amount`. Evaluated at the failing input `Token.wrap(\x7b amount: 10 \x7d)`
on a configured client, the outgoing POST body contains `amount` but
neither contract-address field. -/
theorem c6_wrap_payload_type_omits_contract_fields :
    (Token.wrap (Client.init ⟨"240", "k", none⟩ Client.initialState) ⟨10, none, none⟩
        (FetchOutcome.response 200 (Except.ok Json.null))).2
      = [⟨Method.POST,
          "https://developer-platform-api.crypto.com/v1/cdc-developer-platform/transaction/240/wrap",
          some (Json.obj [("amount", Json.num 10)])⟩] ∧
    lookupField (Json.obj [("amount", Json.num 10)]) "amount" = some (Json.num 10) ∧
    lookupField (Json.obj [("amount", Json.num 10)]) "fromContractAddress" = none ∧
    lookupField (Json.obj [("amount", Json.num 10)]) "toContractAddress" = none :=
  ⟨rfl, rfl, rfl, rfl⟩

/-- C7 counterexample: the claim "a transport failure is propagated to the
caller as-is, without being specially wrapped" is false: a transport error
`"fetch failed"` during `Token.swap` on a configured client surfaces as
`"Failed to swap token: fetch failed"`, a different message — every
integration function's catch block re-wraps the error. -/
theorem c7_counterexample :
    (Token.swap (Client.init ⟨"240", "k", none⟩ Client.initialState) ⟨"0xa", "0xb", 1⟩
        (FetchOutcome.transportError "fetch failed")).1
      = Except.error "Failed to swap token: fetch failed" ∧
    ("Failed to swap token: fetch failed" : String) ≠ "fetch failed" :=
  ⟨rfl, by decide⟩

/-- C7 (amended): for every facade operation on a configured client, a
transport failure is caught and re-raised with the operation-naming prefix
prepended to the original transport error message (it is wrapped, not
propagated as-is; the original message is preserved as the suffix). -/
theorem c7_transport_error_wrapped (op : FacadeOp) (cfg : Config) (st : ClientState)
    (msg : String) (h1 : cfg.chain ≠ "") (h2 : cfg.apiKey ≠ "") :
    (runOp op (Client.init cfg st) (FetchOutcome.transportError msg)).1
      = Except.error (opFailMsg op ++ msg) := by
  rw [runOp_configured op cfg st _ h1 h2, executeFetch_transport]

/-- C7 witness: `Contract.getContractABI` on a configured client with a DNS
failure. -/
theorem c7_transport_error_wrapped_witness :
    ("388" : String) ≠ "" ∧ ("k" : String) ≠ "" ∧
    (runOp (FacadeOp.contractAbi "0xc")
        (Client.init ⟨"388", "k", none⟩ Client.initialState)
        (FetchOutcome.transportError "getaddrinfo ENOTFOUND")).1
      = Except.error "Failed to fetch contract ABI: getaddrinfo ENOTFOUND" :=
  ⟨by decide, by decide,
   c7_transport_error_wrapped (FacadeOp.contractAbi "0xc") ⟨"388", "k", none⟩
     Client.initialState "getaddrinfo ENOTFOUND" (by decide) (by decide)⟩

/-- C8: `Client.getProvider` never raises: on every configuration state,
the never-initialized one included, it returns the stored provider value
(`none` models the absent value). -/
theorem c8_get_provider_never_fails :
    (∀ st : ClientState, Client.getProvider st = Except.ok st.provider) ∧
    Client.getProvider Client.initialState = Except.ok none :=
  ⟨fun _ => rfl, rfl⟩

/-- C9: for `Token.transfer`, `Token.wrap` and `Token.swap` on a client
with a configured chain, the JSON body of the issued POST request is the
caller's payload with its `provider` field set to the provider stored in
`Client` (the spread `\x7b ...payload, provider \x7d` overwrites it): the
body's `provider` field equals the configured provider — also when that is
absent, in which case `JSON.stringify` drops the field — and for
`transfer` the body is independent of any `provider` the caller placed in
the payload. -/
theorem c9_configured_provider_overrides_payload (cfg : Config) (st : ClientState)
    (tp : TransferPayload) (wp : WrapCallPayload) (sp : SwapPayload) (net : FetchOutcome)
    (h1 : cfg.chain ≠ "") :
    ((Token.transfer (Client.init cfg st) tp net).2
        = [⟨Method.POST,
            "https://developer-platform-api.crypto.com/v1/cdc-developer-platform/token/"
              ++ cfg.chain ++ "/transfer",
            some (transferBody tp cfg.provider)⟩] ∧
      transferBody tp cfg.provider
        = transferBody ⟨tp.«to», tp.amount, tp.contractAddress, none⟩ cfg.provider ∧
      lookupField (transferBody tp cfg.provider) "provider"
        = Option.map Json.str cfg.provider) ∧
    ((Token.wrap (Client.init cfg st) wp net).2
        = [⟨Method.POST,
            "https://developer-platform-api.crypto.com/v1/cdc-developer-platform/transaction/"
              ++ cfg.chain ++ "/wrap",
            some (wrapBody wp cfg.provider)⟩] ∧
      lookupField (wrapBody wp cfg.provider) "provider"
        = Option.map Json.str cfg.provider) ∧
    ((Token.swap (Client.init cfg st) sp net).2
        = [⟨Method.POST,
            "https://developer-platform-api.crypto.com/v1/cdc-developer-platform/transaction/"
              ++ cfg.chain ++ "/swap",
            some (swapBody sp cfg.provider)⟩] ∧
      lookupField (swapBody sp cfg.provider) "provider"
        = Option.map Json.str cfg.provider) := by
  obtain ⟨ch, ak, prov⟩ := cfg
  obtain ⟨t, a, c, pv⟩ := tp
  obtain ⟨wa, wf, wt⟩ := wp
  refine ⟨⟨?_, rfl, ?_⟩, ⟨?_, ?_⟩, ⟨?_, ?_⟩⟩
  · simp [Token.transfer, Client.getChainId, Client.init, Client.getProvider, h1,
      tokenApi.transferToken]
  · cases c <;> cases prov <;> rfl
  · simp [Token.wrap, Client.getChainId, Client.init, Client.getProvider, h1,
      tokenApi.wrapToken]
  · cases wf <;> cases wt <;> cases prov <;> rfl
  · simp [Token.swap, Client.getChainId, Client.init, Client.getProvider, h1,
      tokenApi.swapToken]
  · cases prov <;> rfl

/-- C9 witness: configured provider `"https://p"` wins over the caller's
`provider: "caller-provider"` in the transfer payload. -/
theorem c9_configured_provider_overrides_payload_witness :
    ("240" : String) ≠ "" ∧
    lookupField
      (transferBody ⟨"0xr", 5, some "0xc", some "caller-provider"⟩ (some "https://p"))
      "provider" = some (Json.str "https://p") ∧
    transferBody ⟨"0xr", 5, some "0xc", some "caller-provider"⟩ (some "https://p")
      = transferBody ⟨"0xr", 5, some "0xc", none⟩ (some "https://p") :=
  ⟨by decide,
   (c9_configured_provider_overrides_payload ⟨"240", "k", some "https://p"⟩
     Client.initialState ⟨"0xr", 5, some "0xc", some "caller-provider"⟩
     ⟨7, some "0xf", some "0xt"⟩ ⟨"0xf", "0xt", 9⟩
     (FetchOutcome.transportError "x") (by decide)).1.2.2,
   (c9_configured_provider_overrides_payload ⟨"240", "k", some "https://p"⟩
     Client.initialState ⟨"0xr", 5, some "0xc", some "caller-provider"⟩
     ⟨7, some "0xf", some "0xt"⟩ ⟨"0xf", "0xt", 9⟩
     (FetchOutcome.transportError "x") (by decide)).1.2.1⟩

/-- C10: `Client.getApiKey` succeeds exactly when the stored API key is a
non-empty string (JavaScript truthiness: `!this.apiKey` is true on both
`undefined` and `""`), and likewise for `Client.getChainId`; in particular
after `Client.init` with an empty-string API key or chain the respective
getter still throws its Configuration-Missing error even though
initialization occurred. -/
theorem c10_getters_require_truthy_values :
    ∀ (st : ClientState) (cfg : Config),
      ((∃ k, Client.getApiKey st = Except.ok k) ↔ ∃ s, st.apiKey = some s ∧ s ≠ "") ∧
      ((∃ c, Client.getChainId st = Except.ok c) ↔ ∃ s, st.chainId = some s ∧ s ≠ "") ∧
      (Client.getApiKey (Client.init cfg st)
        = if cfg.apiKey = "" then Except.error Client.apiKeyNotConfiguredMsg
          else Except.ok cfg.apiKey) ∧
      (Client.getChainId (Client.init cfg st)
        = if cfg.chain = "" then Except.error Client.chainNotConfiguredMsg
          else Except.ok cfg.chain) := by
  intro st cfg
  refine ⟨?_, ?_, rfl, rfl⟩
  · constructor
    · rintro ⟨k, hk⟩
      cases hv : st.apiKey with
      | none => simp [Client.getApiKey, hv] at hk
      | some s =>
          simp only [Client.getApiKey, hv] at hk
          by_cases hs : s = ""
          · simp [hs] at hk
          · exact ⟨s, rfl, hs⟩
    · rintro ⟨s, hv, hs⟩
      exact ⟨s, by simp [Client.getApiKey, hv, hs]⟩
  · constructor
    · rintro ⟨k, hk⟩
      cases hv : st.chainId with
      | none => simp [Client.getChainId, hv] at hk
      | some s =>
          simp only [Client.getChainId, hv] at hk
          by_cases hs : s = ""
          · simp [hs] at hk
          · exact ⟨s, rfl, hs⟩
    · rintro ⟨s, hv, hs⟩
      exact ⟨s, by simp [Client.getChainId, hv, hs]⟩
